import Mathlib

/-!
# Verification of the du-skill-tracker core logic

Shallow embedding of the core logic of the `du-skill-tracker` repository:

* the Excel header → model-field resolution (`HEADER_MAP`, `_match_header`
  in `app/routes/resources.py`),
* the bulk-upload row parsing and single-commit persistence
  (`upload` in `app/routes/resources.py`),
* the OTP authentication gate (the `User.generate_otp` / `User.verify_otp`
  methods and the OTP login route are exercised by the test-suite and by
  callers but their bodies are not part of the source tree, so they are
  modelled from the specification),
* the super-admin provisioning and protection
  (`_ensure_super_admin` in `app/__init__.py`, `update_user_role` and
  `revoke_user` in `app/routes/admin.py`).

Cells of a spreadsheet are modelled as `Option String`: `none` stands for an
empty (`None`-valued) cell and `some s` for a cell whose value converts to
the string `s`.
-/

/- ============================================================
   String primitives (Python `in` substring test)
   ============================================================ -/

/-- `listPrefixB n h` is true iff `n` is a prefix of `h` (on char lists). -/
def listPrefixB : List Char → List Char → Bool
  | [], _ => true
  | _ :: _, [] => false
  | a :: as, b :: bs => a == b && listPrefixB as bs

/-- `isSubstrL n h` is true iff `n` occurs as a contiguous sublist of `h`. -/
def isSubstrL (n : List Char) : List Char → Bool
  | [] => listPrefixB n []
  | b :: bs => listPrefixB n (b :: bs) || isSubstrL n bs

/-- Python's `needle in hay` test on strings. -/
def strIn (needle hay : String) : Bool :=
  isSubstrL needle.data hay.data

/-- Python's `str.strip()`: drop whitespace from both ends. -/
def pyStrip (s : String) : String :=
  String.mk (((s.data.dropWhile Char.isWhitespace).reverse.dropWhile
    Char.isWhitespace).reverse)

/-- Python's `str.upper()` (ASCII case mapping, character by character). -/
def pyUpper (s : String) : String :=
  String.mk (s.data.map Char.toUpper)

/-- `header_text.strip().upper()`, the normalization in `_match_header`. -/
def normalizeHeader (s : String) : String :=
  pyUpper (pyStrip s)

/- ============================================================
   HEADER_MAP  (app/routes/resources.py, lines 30-61)
   An ordered association list mirroring the Python dict literal
   (Python dicts iterate in first-insertion order; all keys are distinct).
   ============================================================ -/

def HEADER_MAP : List (String × String) := [
  ("PERSONNEL_NO", "personnel_no"),
  ("PRE HIRE ID", "personnel_no"),
  ("PERSONNEL_NO/PRE HIRE ID", "personnel_no"),
  ("PERSONNEL NO", "personnel_no"),
  ("NAME", "name"),
  ("EMPLOYEE_PRIMARY_SKILL", "primary_skill"),
  ("EMPLOYEE PRIMARY SKILL", "primary_skill"),
  ("PRIMARY SKILL", "primary_skill"),
  ("MANAGEMENT LEVEL", "management_level"),
  ("MANAGEMENT_LEVEL", "management_level"),
  ("HOME_LOC", "home_location"),
  ("HOME LOC", "home_location"),
  ("HOME LOCATION", "home_location"),
  ("CURRENT_LOCK_STATUS", "lock_status"),
  ("CURRENT LOCK STATUS", "lock_status"),
  ("LOCK STATUS", "lock_status"),
  ("ROLL_OFF_DATE", "availability_status"),
  ("ROLL OFF DATE", "availability_status"),
  ("ROLLOFF DATE", "availability_status"),
  ("E_MAIL_ADDRESS", "email"),
  ("E MAIL ADDRESS", "email"),
  ("EMAIL", "email"),
  ("EMAIL ADDRESS", "email"),
  ("CONTACT_DETAILS", "contact_details"),
  ("CONTACT DETAILS", "contact_details"),
  ("CONTACT", "contact_details"),
  ("PHONE", "contact_details"),
  ("JOINING DATE", "joining_date"),
  ("JOINING DATE (BENCH/JOINERS)", "joining_date"),
  ("JOINING_DATE", "joining_date")
]

/-- Exact dictionary lookup `HEADER_MAP[normalized]` (keys are distinct, so
first-match association lookup coincides with Python dict lookup). -/
def lookupHeader (n : String) : List (String × String) → Option String
  | [] => none
  | (k, f) :: rest => if k == n then some f else lookupHeader n rest

/-- The `for key, field in HEADER_MAP.items()` loop of `_match_header`:
first entry (in insertion order) with `key in normalized or normalized in key`. -/
def substrMatch (n : String) : List (String × String) → Option String
  | [] => none
  | (k, f) :: rest =>
    if strIn k n || strIn n k then some f else substrMatch n rest

/-- `_match_header` (app/routes/resources.py, lines 64-74). -/
def matchHeader (headerText : String) : Option String :=
  match lookupHeader (normalizeHeader headerText) HEADER_MAP with
  | some f => some f
  | none => substrMatch (normalizeHeader headerText) HEADER_MAP

/-- The spec's description of `resolve_header`: normalize; exact match
against the HeaderMap key set, returning the mapped field on a hit;
otherwise the field of the first map entry (first-inserted-key-wins order)
whose key is a substring of the normalized header or of which the
normalized header is a substring; otherwise no match.  Stated with the
generic `List.find?` combinator, to be compared with `matchHeader`. -/
def resolveHeaderSpec (raw : String) : Option String :=
  match HEADER_MAP.find? (fun p => p.fst == normalizeHeader raw) with
  | some p => some p.snd
  | none =>
    match HEADER_MAP.find?
        (fun p => strIn p.fst (normalizeHeader raw) || strIn (normalizeHeader raw) p.fst) with
    | some p => some p.snd
    | none => none

/- ============================================================
   Bulk-upload pipeline (app/routes/resources.py, `upload`, lines 162-243).
   Cells are `Option String`; a row is a list of cells; the sheet is the
   header row plus the data rows.  The per-row `try` block (constructing a
   `Resource` and `db.session.add`) can raise; that external failure is
   modelled by the oracle `fail : row data → Bool`.  Whether the single
   terminal `db.session.commit()` succeeds is the parameter `commitOk`;
   on failure the `except` handler rolls the whole session back.
   ============================================================ -/

/-- Python truthiness of a header cell (`if cell.value:`): false for an
empty cell and for the empty string. -/
def cellTruthy : Option String → Bool
  | none => false
  | some s => !(s == "")

/-- The header-mapping loop of `upload` (lines 178-183): walk the header
row with its column index; for each truthy cell whose text `_match_header`
resolves, record `column index → model field`. -/
def buildFieldMapAux : Nat → List (Option String) → List (Nat × String)
  | _, [] => []
  | i, c :: rest =>
    if cellTruthy c then
      match matchHeader (c.getD "") with
      | some f => (i, f) :: buildFieldMapAux (i + 1) rest
      | none => buildFieldMapAux (i + 1) rest
    else buildFieldMapAux (i + 1) rest

/-- `field_map` built from the header row. -/
def buildFieldMap (header : List (Option String)) : List (Nat × String) :=
  buildFieldMapAux 0 header

/-- `idx in field_map` / `field_map[idx]` (column indices are distinct by
construction, so first-match lookup coincides with dict lookup). -/
def lookupIdx (i : Nat) : List (Nat × String) → Option String
  | [] => none
  | (j, f) :: rest => if j == i then some f else lookupIdx i rest

/-- Python dict assignment `d[k] = v`: replace the value of the first
occurrence of `k`, else append. -/
def insertVal : List (String × String) → String → String → List (String × String)
  | [], k, v => [(k, v)]
  | (k', v') :: rest, k, v =>
    if k' == k then (k', v) :: rest else (k', v') :: insertVal rest k v

/-- Python dict lookup `d.get(k)`. -/
def lookupVal (k : String) : List (String × String) → Option String
  | [] => none
  | (k', v) :: rest => if k' == k then some v else lookupVal k rest

/-- The per-row cell loop of `upload` (lines 196-201): for each mapped,
non-`None` cell whose stripped string is non-empty, set
`row_data[field_map[idx]] = value`. -/
def buildRowDataAux (fm : List (Nat × String)) :
    Nat → List (Option String) → List (String × String) → List (String × String)
  | _, [], acc => acc
  | i, c :: rest, acc =>
    match lookupIdx i fm, c with
    | some field, some s =>
      if pyStrip s == "" then buildRowDataAux fm (i + 1) rest acc
      else buildRowDataAux fm (i + 1) rest (insertVal acc field (pyStrip s))
    | _, _ => buildRowDataAux fm (i + 1) rest acc

/-- `row_data` for one data row. -/
def buildRowData (fm : List (Nat × String)) (row : List (Option String)) :
    List (String × String) :=
  buildRowDataAux fm 0 row []

/-- The skip test of `upload` (line 204):
`if not row_data or not row_data.get('name'): continue`. -/
def rowSkip (rd : List (String × String)) : Bool :=
  rd.isEmpty ||
    (match lookupVal "name" rd with
     | none => true
     | some v => v == "")

/-- An entirely blank data row: every cell is empty or strips to the empty
string (such rows contribute no `row_data` entries). -/
def blankRow (row : List (Option String)) : Bool :=
  row.all (fun c =>
    match c with
    | none => true
    | some s => pyStrip s == "")

/-- The `Resource(...)` record built from one accepted row (lines 208-221):
every model field defaults to `''` via `row_data.get(field, '')`.
`demand_id` and `uploaded_by` are the run-constant foreign keys. -/
structure ResourceRec where
  demand_id : Nat
  personnel_no : String
  name : String
  primary_skill : String
  management_level : String
  home_location : String
  lock_status : String
  availability_status : String
  email : String
  contact_details : String
  joining_date : String
  uploaded_by : Nat

deriving DecidableEq, Repr

/-- `row_data.get(field, '')`. -/
def getField (k : String) (rd : List (String × String)) : String :=
  (lookupVal k rd).getD ""

def mkResource (demandId uploadedBy : Nat) (rd : List (String × String)) : ResourceRec :=
  { demand_id := demandId
    personnel_no := getField "personnel_no" rd
    name := getField "name" rd
    primary_skill := getField "primary_skill" rd
    management_level := getField "management_level" rd
    home_location := getField "home_location" rd
    lock_status := getField "lock_status" rd
    availability_status := getField "availability_status" rd
    email := getField "email" rd
    contact_details := getField "contact_details" rd
    joining_date := getField "joining_date" rd
    uploaded_by := uploadedBy }

/-- The data-row loop of `upload` (lines 193-226).  Returns
`(count, errors, staged records in db.session.add order)`.  `fail rd` is
true when the `Resource(...)` construction for that row's data raises (the
inner `except` path, which increments `errors` and skips the row). -/
def processRows (fail : List (String × String) → Bool) (demandId uploadedBy : Nat)
    (fm : List (Nat × String)) :
    List (List (Option String)) → Nat × Nat × List ResourceRec
  | [] => (0, 0, [])
  | row :: rest =>
    let rd := buildRowData fm row
    if rowSkip rd then processRows fail demandId uploadedBy fm rest
    else if fail rd then
      let r := processRows fail demandId uploadedBy fm rest
      (r.fst, r.snd.fst + 1, r.snd.snd)
    else
      let r := processRows fail demandId uploadedBy fm rest
      (r.fst + 1, r.snd.fst, mkResource demandId uploadedBy rd :: r.snd.snd)

/-- Outcome of one upload run, as flashed to the user:
`headerError` is the batch-fatal "Could not detect column headers" message
(lines 185-190), `committed c e` the success message with its accepted and
per-row error counts (lines 228-236), `commitFailed` the terminal
"Error processing Excel file" message after rollback (lines 238-241). -/
inductive UploadOutcome where
  | headerError : UploadOutcome
  | committed : Nat → Nat → UploadOutcome
  | commitFailed : UploadOutcome

deriving DecidableEq, Repr

/-- The whole `upload` run over a sheet `header :: rows`, starting from the
persistent store `db0` (the resources already in the database).  Staged
records become persistent only through the single terminal commit; when
the commit raises (`commitOk = false`) the handler rolls back the session,
leaving the store unchanged. -/
def upload (fail : List (String × String) → Bool) (commitOk : Bool)
    (demandId uploadedBy : Nat) (db0 : List ResourceRec)
    (header : List (Option String)) (rows : List (List (Option String))) :
    List ResourceRec × UploadOutcome :=
  let fm := buildFieldMap header
  if fm.isEmpty then (db0, UploadOutcome.headerError)
  else
    let r := processRows fail demandId uploadedBy fm rows
    if commitOk then (db0 ++ r.snd.snd, UploadOutcome.committed r.fst r.snd.fst)
    else (db0, UploadOutcome.commitFailed)

/- ============================================================
   OTP authentication gate.

   The test-suite (src/tests/test_app.py, TestOTPAuth) and the callers in
   app/__init__.py and app/routes/admin.py exercise `User.generate_otp`,
   `User.verify_otp`, the `otp_code` / `otp_expires_at` / `is_approved`
   columns and the OTP login route, but the bodies of these members are
   not present under the source tree (app/models.py and app/auth.py there
   predate the OTP flow).  The definitions below are therefore modelled
   from the specification.  Time is measured in minutes, so the 10-minute
   validity window is `now + 10`.
   ============================================================ -/

/-- `listSuffixB n h` is true iff `n` is a suffix of `h`. -/
def listSuffixB (n h : List Char) : Bool :=
  listPrefixB n.reverse h.reverse

/-- Modelled from the spec: the required email domain suffix for the
eligibility gate (the `@accenture.com` check exercised by the tests and
enforced verbatim for admin-created accounts in app/routes/admin.py). -/
def EMAIL_DOMAIN : String := "@accenture.com"

/-- Python `email.endswith(EMAIL_DOMAIN)`. -/
def emailDomainOk (email : String) : Bool :=
  listSuffixB EMAIL_DOMAIN.data email.data

/-- Modelled from the spec: eligibility rejection reasons of
`request_otp` / `resend_otp`. -/
inductive EligibilityError where
  | invalid_domain : EligibilityError
  | not_registered : EligibilityError
  | deactivated : EligibilityError
  | pending_approval : EligibilityError

deriving DecidableEq, Repr

/-- Modelled from the spec: verification failure reasons of `verify_otp`. -/
inductive VerifyError where
  | no_pending_request : VerifyError
  | mismatch : VerifyError
  | expired : VerifyError

deriving DecidableEq, Repr

/-- The subset of the `User` entity relevant to the OTP gate (the spec's
Account data model): unique email, the two activation flags and the
nullable outstanding OTP code with its absolute expiry. -/
structure Account where
  email : String
  is_active : Bool
  is_approved : Bool
  otp_code : Option String
  otp_expires_at : Option Nat

deriving DecidableEq, Repr

/-- `User.query.filter_by(email=email).first()`. -/
def findAccount (db : List Account) (email : String) : Option Account :=
  db.find? (fun u => u.email == email)

/-- Persist a mutation of the account row keyed by `email` (replace the
first — with unique emails, the only — matching row). -/
def setAccount : List Account → String → Account → List Account
  | [], _, _ => []
  | u :: rest, e, nu =>
    if u.email == e then nu :: rest else u :: setAccount rest e nu

/-- One decimal digit drawn from (a slice of) the random seed. -/
def otpDigit (n : Nat) : Char :=
  Char.ofNat (48 + n % 10)

/-- Modelled from the spec: `generate_otp` draws a 6-digit numeric code,
each digit independently (here: from an independent decimal slice of the
seed that stands for the external randomness source). -/
def genOtp (seed : Nat) : String :=
  String.mk ((List.range 6).map (fun i => otpDigit (seed / 10 ^ i)))

/-- Modelled from the spec: `request_otp(email)` runs the eligibility gate
in order — email domain suffix, account existence, `is_active`,
`is_approved` — returning a specific rejection and changing nothing on any
failure; when all checks pass it generates a 6-digit code, stores it with
expiry `now + 10` minutes on the account, and returns the code. -/
def requestOtp (db : List Account) (email : String) (now seed : Nat) :
    List Account × Except EligibilityError String :=
  if emailDomainOk email then
    match findAccount db email with
    | none => (db, Except.error EligibilityError.not_registered)
    | some u =>
      if u.is_active then
        if u.is_approved then
          (setAccount db email
            { u with otp_code := some (genOtp seed),
                     otp_expires_at := some (now + 10) },
           Except.ok (genOtp seed))
        else (db, Except.error EligibilityError.pending_approval)
      else (db, Except.error EligibilityError.deactivated)
  else (db, Except.error EligibilityError.invalid_domain)

/-- Clear the outstanding code and expiry on an account. -/
def clearOtp (u : Account) : Account :=
  { u with otp_code := none, otp_expires_at := none }

/-- Modelled from the spec: `verify_otp(email, code)` fails closed with
`no_pending_request` when the account or an outstanding code is missing;
with `expired` when `now > otp_expires_at` (the expired code is treated as
already invalid — the verification attempt that touches it deletes it);
with `mismatch` on wrong digits (code left in place for retry); on success
it clears `otp_code` / `otp_expires_at` (single use) and authenticates. -/
def verifyOtp (db : List Account) (email code : String) (now : Nat) :
    List Account × Except VerifyError Unit :=
  match findAccount db email with
  | none => (db, Except.error VerifyError.no_pending_request)
  | some u =>
    match u.otp_code, u.otp_expires_at with
    | some stored, some exp =>
      if now > exp then
        (setAccount db email (clearOtp u), Except.error VerifyError.expired)
      else if code == stored then
        (setAccount db email (clearOtp u), Except.ok ())
      else (db, Except.error VerifyError.mismatch)
    | _, _ => (db, Except.error VerifyError.no_pending_request)

deriving instance DecidableEq for Except

/- ============================================================
   Super-admin provisioning and protection
   (app/__init__.py `_ensure_super_admin`, lines 263-307;
    app/routes/admin.py `update_user_role`, lines 221-270,
    and `revoke_user`, lines 296-318).
   ============================================================ -/

/-- The fixed designated super-admin address
(app/routes/admin.py line 24, app/__init__.py line 270). -/
def SUPER_ADMIN_EMAIL : String := "pratyush.vashistha@accenture.com"

/-- Python's `str.lower()` (ASCII case mapping, character by character). -/
def pyLower (s : String) : String :=
  String.mk (s.data.map Char.toLower)

/-- The subset of the `User` row relevant to the admin operations. -/
structure AppUser where
  id : Nat
  email : String
  role : String
  is_active : Bool
  is_approved : Bool

deriving DecidableEq, Repr

/-- `User.query.get(user_id)` (primary keys are unique, so first match). -/
def findUserById (db : List AppUser) (uid : Nat) : Option AppUser :=
  db.find? (fun u => u.id == uid)

/-- Persist a mutation of the row fetched by primary key. -/
def setUserById : List AppUser → Nat → AppUser → List AppUser
  | [], _, _ => []
  | u :: rest, uid, nu =>
    if u.id == uid then nu :: rest else u :: setUserById rest uid nu

/-- `User.query.filter_by(email=...).first()`. -/
def findUserByEmail (db : List AppUser) (e : String) : Option AppUser :=
  db.find? (fun u => u.email == e)

/-- Persist a mutation of the row fetched by (unique) email. -/
def setUserByEmail : List AppUser → String → AppUser → List AppUser
  | [], _, _ => []
  | u :: rest, e, nu =>
    if u.email == e then nu :: rest else u :: setUserByEmail rest e nu

/-- `valid_roles` (app/routes/admin.py line 233). -/
def VALID_ROLES : List String := ["admin", "pmo", "evaluator", "resource"]

/-- `User.query.filter_by(role='admin').count()`. -/
def adminCount (db : List AppUser) : Nat :=
  (db.filter (fun u => u.role == "admin")).length

/-- `update_user_role` (app/routes/admin.py, lines 221-270): reject an
invalid role, a role change away from `admin` for the super admin, an
`admin` assignment by anyone but the super admin, and removing the last
admin; otherwise set the target's role.  Every rejection leaves the store
unchanged. -/
def updateUserRole (db : List AppUser) (actorEmail : String) (uid : Nat)
    (newRole : String) : List AppUser :=
  match findUserById db uid with
  | none => db
  | some user =>
    if newRole ∉ VALID_ROLES then db
    else if pyLower user.email = SUPER_ADMIN_EMAIL ∧ newRole ≠ "admin" then db
    else if newRole = "admin" ∧ pyLower actorEmail ≠ SUPER_ADMIN_EMAIL then db
    else if user.role = "admin" ∧ newRole ≠ "admin" ∧ adminCount db ≤ 1 then db
    else setUserById db uid { user with role := newRole }

/-- `revoke_user` (app/routes/admin.py, lines 296-318): refuse to touch
the super admin; otherwise clear `is_approved` and `is_active`. -/
def revokeUser (db : List AppUser) (uid : Nat) : List AppUser :=
  match findUserById db uid with
  | none => db
  | some user =>
    if pyLower user.email = SUPER_ADMIN_EMAIL then db
    else setUserById db uid { user with is_approved := false, is_active := false }

/-- `_ensure_super_admin` (app/__init__.py, lines 263-307): create the
super-admin row (admin role, active, approved) when absent, otherwise
force `role = 'admin'`, `is_approved = True`, `is_active = True` on it. -/
def ensureSuperAdmin (db : List AppUser) (newId : Nat) : List AppUser :=
  match findUserByEmail db SUPER_ADMIN_EMAIL with
  | none => db ++ [AppUser.mk newId SUPER_ADMIN_EMAIL "admin" true true]
  | some sa =>
    setUserByEmail db SUPER_ADMIN_EMAIL
      { sa with role := "admin", is_approved := true, is_active := true }

/-- The store contains a super-admin row with admin role, active and
approved. -/
def superAdminOk (db : List AppUser) : Prop :=
  ∃ u ∈ db, u.email = SUPER_ADMIN_EMAIL ∧ u.role = "admin"
    ∧ u.is_active = true ∧ u.is_approved = true

/-- Every row carrying the super-admin address (case-insensitively) has
admin role, is active and is approved. -/
def saProtected (db : List AppUser) : Prop :=
  ∀ u ∈ db, pyLower u.email = SUPER_ADMIN_EMAIL →
    u.role = "admin" ∧ u.is_active = true ∧ u.is_approved = true

/- ============================================================
   Theorems
   ============================================================ -/

/- ============================================================
   Generic lemmas connecting the loops with List.find?
   ============================================================ -/

theorem lookupHeader_eq_find (n : String) (m : List (String × String)) :
    lookupHeader n m = (m.find? (fun p => p.fst == n)).map Prod.snd := by
  induction m with
  | nil => rfl
  | cons p rest ih =>
    cases p with
    | mk k f =>
      by_cases hk : (k == n) = true
      · simp [lookupHeader, List.find?, hk]
      · simp only [Bool.not_eq_true] at hk
        simpa [lookupHeader, List.find?, hk] using ih

theorem substrMatch_eq_find (n : String) (m : List (String × String)) :
    substrMatch n m
      = (m.find? (fun p => strIn p.fst n || strIn n p.fst)).map Prod.snd := by
  induction m with
  | nil => rfl
  | cons p rest ih =>
    cases p with
    | mk k f =>
      by_cases hk : (strIn k n || strIn n k) = true
      · simp [substrMatch, List.find?, hk]
      · simp only [Bool.not_eq_true] at hk
        simpa [substrMatch, List.find?, hk] using ih

/- ============================================================
   C1 / C10 theorems
   ============================================================ -/

/-- C1: for every raw header string, `_match_header` first normalizes
(trim + uppercase), returns the mapped canonical field immediately on an
exact match against the `HEADER_MAP` key set, otherwise returns the field
of the first map entry (first-inserted-key-wins iteration order) whose key
is a substring of the normalized header or of which the normalized header
is a substring, and otherwise returns no match — i.e. the implementation
coincides with the spec-side `resolveHeaderSpec` on every input. -/
theorem matchHeader_eq_resolveHeaderSpec (h : String) :
    matchHeader h = resolveHeaderSpec h := by
  unfold matchHeader resolveHeaderSpec
  rw [lookupHeader_eq_find, substrMatch_eq_find]
  cases hfind : HEADER_MAP.find? (fun p => p.fst == normalizeHeader h) with
  | none =>
    cases h2 : HEADER_MAP.find?
        (fun p => strIn p.fst (normalizeHeader h) || strIn (normalizeHeader h) p.fst) with
    | none => simp
    | some p => simp
  | some p => simp

/- ============================================================
   Helper lemmas for the upload pipeline
   ============================================================ -/

theorem processRows_skip_cons (fail : List (String × String) → Bool)
    (demandId uploadedBy : Nat) (fm : List (Nat × String))
    (row : List (Option String)) (rest : List (List (Option String)))
    (h : rowSkip (buildRowData fm row) = true) :
    processRows fail demandId uploadedBy fm (row :: rest)
      = processRows fail demandId uploadedBy fm rest := by
  simp [processRows, h]

theorem buildRowDataAux_blank (fm : List (Nat × String)) :
    ∀ (row : List (Option String)) (i : Nat) (acc : List (String × String)),
      blankRow row = true → buildRowDataAux fm i row acc = acc := by
  intro row
  induction row with
  | nil => intro i acc _; rfl
  | cons c rest ih =>
    intro i acc hb
    cases c with
    | none =>
      have hb' : blankRow rest = true := by
        simpa [blankRow] using hb
      cases hl : lookupIdx i fm with
      | none => simpa [buildRowDataAux, hl] using ih (i + 1) acc hb'
      | some f => simpa [buildRowDataAux, hl] using ih (i + 1) acc hb'
    | some s =>
      simp only [blankRow, List.all_cons, Bool.and_eq_true] at hb
      obtain ⟨hs, h2⟩ := hb
      have hb' : blankRow rest = true := by
        simpa [blankRow] using h2
      cases hl : lookupIdx i fm with
      | none => simpa [buildRowDataAux, hl] using ih (i + 1) acc hb'
      | some f => simpa [buildRowDataAux, hl, hs] using ih (i + 1) acc hb'

theorem processRows_all_blank (fail : List (String × String) → Bool)
    (demandId uploadedBy : Nat) (fm : List (Nat × String)) :
    ∀ rows : List (List (Option String)),
      (∀ r ∈ rows, blankRow r = true) →
      processRows fail demandId uploadedBy fm rows = (0, 0, []) := by
  intro rows
  induction rows with
  | nil => intro _; rfl
  | cons row rest ih =>
    intro hb
    have h1 : blankRow row = true := hb row (List.mem_cons_self row rest)
    have h2 : buildRowData fm row = [] := buildRowDataAux_blank fm row 0 [] h1
    have h3 : rowSkip (buildRowData fm row) = true := by
      rw [h2]; rfl
    rw [processRows_skip_cons fail demandId uploadedBy fm row rest h3]
    exact ih (fun r hr => hb r (List.mem_cons_of_mem row hr))

theorem processRows_length (fail : List (String × String) → Bool)
    (demandId uploadedBy : Nat) (fm : List (Nat × String)) :
    ∀ rows : List (List (Option String)),
      (processRows fail demandId uploadedBy fm rows).snd.snd.length
        = (processRows fail demandId uploadedBy fm rows).fst := by
  intro rows
  induction rows with
  | nil => rfl
  | cons row rest ih =>
    by_cases hs : rowSkip (buildRowData fm row) = true
    · rw [processRows_skip_cons fail demandId uploadedBy fm row rest hs]
      exact ih
    · simp only [Bool.not_eq_true] at hs
      by_cases hf : fail (buildRowData fm row) = true
      · simpa [processRows, hs, hf] using ih
      · simp only [Bool.not_eq_true] at hf
        simpa [processRows, hs, hf] using ih

/- ============================================================
   C2, C7, C8, C10 theorems
   ============================================================ -/

/-- C2: all accepted records of an upload run are persisted by the single
commit at the end of row processing (the persistent store becomes
`db0 ++ staged`, with exactly `accepted_count` staged records); if the
commit fails the whole batch is rolled back — the store is unchanged —
and the run reports the terminal `commitFailed` outcome, which is distinct
from every per-row-counting `committed` outcome. -/
theorem upload_commit_atomic (fail : List (String × String) → Bool)
    (demandId uploadedBy : Nat) (db0 : List ResourceRec)
    (header : List (Option String)) (rows : List (List (Option String)))
    (c e : Nat) (hfm : buildFieldMap header ≠ []) :
    upload fail false demandId uploadedBy db0 header rows
        = (db0, UploadOutcome.commitFailed)
      ∧ UploadOutcome.commitFailed ≠ UploadOutcome.committed c e
      ∧ (upload fail true demandId uploadedBy db0 header rows).fst
          = db0 ++ (processRows fail demandId uploadedBy (buildFieldMap header) rows).snd.snd
      ∧ (processRows fail demandId uploadedBy (buildFieldMap header) rows).snd.snd.length
          = (processRows fail demandId uploadedBy (buildFieldMap header) rows).fst := by
  refine ⟨?_, ?_, ?_,
    processRows_length fail demandId uploadedBy (buildFieldMap header) rows⟩
  · cases hh : buildFieldMap header with
    | nil => exact absurd hh hfm
    | cons p fmrest => simp [upload, hh]
  · intro hcontra; cases hcontra
  · cases hh : buildFieldMap header with
    | nil => exact absurd hh hfm
    | cons p fmrest => simp [upload, hh]

/-- Witness for `upload_commit_atomic` at a concrete sheet. -/
theorem upload_commit_atomic_witness :
    buildFieldMap [some "NAME"] ≠ []
      ∧ (upload (fun _ => false) false 1 2 [] [some "NAME"] [[some "Jane"]]
            = ([], UploadOutcome.commitFailed)
          ∧ UploadOutcome.commitFailed ≠ UploadOutcome.committed 1 0
          ∧ (upload (fun _ => false) true 1 2 [] [some "NAME"] [[some "Jane"]]).fst
              = [] ++ (processRows (fun _ => false) 1 2 (buildFieldMap [some "NAME"])
                  [[some "Jane"]]).snd.snd
          ∧ (processRows (fun _ => false) 1 2 (buildFieldMap [some "NAME"])
                [[some "Jane"]]).snd.snd.length
              = (processRows (fun _ => false) 1 2 (buildFieldMap [some "NAME"])
                  [[some "Jane"]]).fst) :=
  ⟨by decide,
   upload_commit_atomic (fun _ => false) 1 2 [] [some "NAME"] [[some "Jane"]] 1 0 (by decide)⟩

/-- C7: an uploaded sheet whose header row yields zero resolvable headers
(empty column-index → field map) is rejected up front: the run returns the
batch-fatal `headerError` outcome — distinct from every per-row-counting
`committed` outcome — and the persistent store is untouched (no row parsed
or persisted). -/
theorem upload_empty_field_map (fail : List (String × String) → Bool)
    (commitOk : Bool) (demandId uploadedBy : Nat) (db0 : List ResourceRec)
    (header : List (Option String)) (rows : List (List (Option String)))
    (c e : Nat) (hfm : buildFieldMap header = []) :
    upload fail commitOk demandId uploadedBy db0 header rows
        = (db0, UploadOutcome.headerError)
      ∧ UploadOutcome.headerError ≠ UploadOutcome.committed c e := by
  refine ⟨?_, ?_⟩
  · simp [upload, hfm]
  · intro hcontra; cases hcontra

/-- Witness for `upload_empty_field_map` at a concrete sheet. -/
theorem upload_empty_field_map_witness :
    buildFieldMap [some "XYZ HELLO"] = []
      ∧ (upload (fun _ => false) true 1 2 [] [some "XYZ HELLO"] [[some "Jane"]]
            = ([], UploadOutcome.headerError)
          ∧ UploadOutcome.headerError ≠ UploadOutcome.committed 0 0) :=
  ⟨by decide,
   upload_empty_field_map (fun _ => false) true 1 2 [] [some "XYZ HELLO"]
     [[some "Jane"]] 0 0 (by decide)⟩

/-- C8: a data row whose built `row_data` is empty or lacks a (non-empty)
value for the mandatory `name` field is silently skipped — processing it is
identical to not having it, so neither `accepted_count` nor `error_count`
moves; consequently a sheet with a resolvable header row followed only by
entirely blank rows commits with `accepted_count = 0` and
`error_count = 0` instead of a structural error. -/
theorem upload_blank_rows_skipped :
    (∀ (fail : List (String × String) → Bool) (demandId uploadedBy : Nat)
        (fm : List (Nat × String)) (row : List (Option String))
        (rest : List (List (Option String))),
      rowSkip (buildRowData fm row) = true →
      processRows fail demandId uploadedBy fm (row :: rest)
        = processRows fail demandId uploadedBy fm rest)
    ∧ (∀ (fail : List (String × String) → Bool) (demandId uploadedBy : Nat)
        (db0 : List ResourceRec) (header : List (Option String))
        (rows : List (List (Option String))),
      buildFieldMap header ≠ [] →
      (∀ r ∈ rows, blankRow r = true) →
      upload fail true demandId uploadedBy db0 header rows
        = (db0, UploadOutcome.committed 0 0)) := by
  refine ⟨processRows_skip_cons, ?_⟩
  intro fail demandId uploadedBy db0 header rows hfm hb
  cases hh : buildFieldMap header with
  | nil => exact absurd hh hfm
  | cons p fmrest =>
    have hp : processRows fail demandId uploadedBy (buildFieldMap header) rows
        = (0, 0, []) :=
      processRows_all_blank fail demandId uploadedBy (buildFieldMap header) rows hb
    rw [hh] at hp
    simp [upload, hh, hp]

/-- Witness for `upload_blank_rows_skipped` at a concrete sheet: one row
with a mapped skill but no name, and an all-blank two-row sheet. -/
theorem upload_blank_rows_skipped_witness :
    (rowSkip (buildRowData [(0, "primary_skill")] [some "Python"]) = true
      ∧ processRows (fun _ => false) 1 2 [(0, "primary_skill")]
          ([some "Python"] :: [])
        = processRows (fun _ => false) 1 2 [(0, "primary_skill")] [])
    ∧ (buildFieldMap [some "NAME"] ≠ []
      ∧ upload (fun _ => false) true 1 2 [] [some "NAME"]
          [[none, some "   "], []]
        = ([], UploadOutcome.committed 0 0)) :=
  ⟨⟨by decide,
    upload_blank_rows_skipped.1 (fun _ => false) 1 2 [(0, "primary_skill")]
      [some "Python"] [] (by decide)⟩,
   ⟨by decide,
    upload_blank_rows_skipped.2 (fun _ => false) 1 2 [] [some "NAME"]
      [[none, some "   "], []] (by decide) (by decide)⟩⟩

/-- C10: a header cell whose trimmed uppercased normalization is the empty
string resolves to `personnel_no` — the field of the first `HEADER_MAP`
entry — because the empty string is a substring of every key; and in the
header-mapping loop such a (truthy, e.g. whitespace-only) cell is mapped
into `field_map` instead of being ignored. -/
theorem matchHeader_empty_normalization :
    (∀ h : String, normalizeHeader h = "" → matchHeader h = some "personnel_no")
    ∧ (∀ (i : Nat) (s : String) (rest : List (Option String)),
        (s == "") = false → normalizeHeader s = "" →
        buildFieldMapAux i (some s :: rest)
          = (i, "personnel_no") :: buildFieldMapAux (i + 1) rest) := by
  have main : ∀ h : String, normalizeHeader h = "" → matchHeader h = some "personnel_no" := by
    intro h hn
    unfold matchHeader
    rw [hn]
    decide
  refine ⟨main, ?_⟩
  intro i s rest hs hn
  simp [buildFieldMapAux, cellTruthy, hs, main s hn]

/-- Witness for `matchHeader_empty_normalization` at the whitespace-only
header `"   "`. -/
theorem matchHeader_empty_normalization_witness :
    (normalizeHeader "   " = "" ∧ matchHeader "   " = some "personnel_no")
    ∧ (("   " == "") = false
      ∧ buildFieldMapAux 0 (some "   " :: [some "NAME"])
          = (0, "personnel_no") :: buildFieldMapAux 1 [some "NAME"]) :=
  ⟨⟨by decide, matchHeader_empty_normalization.1 "   " (by decide)⟩,
   ⟨by decide,
    matchHeader_empty_normalization.2 0 "   " [some "NAME"] (by decide) (by decide)⟩⟩

/- ============================================================
   Helper lemmas for the OTP gate
   ============================================================ -/

theorem findAccount_setAccount (db : List Account) (e : String) (nu : Account)
    (he : nu.email = e) (hs : (findAccount db e).isSome = true) :
    findAccount (setAccount db e nu) e = some nu := by
  induction db with
  | nil => simp [findAccount] at hs
  | cons u rest ih =>
    by_cases hu : (u.email == e) = true
    · simp [findAccount, setAccount, hu, List.find?, he]
    · simp only [Bool.not_eq_true] at hu
      have hs' : (findAccount rest e).isSome = true := by
        simpa [findAccount, List.find?, hu] using hs
      simpa [findAccount, setAccount, hu, List.find?] using ih hs'

theorem findAccount_email (db : List Account) (e : String) (u : Account)
    (h : findAccount db e = some u) : u.email = e := by
  have := List.find?_some h
  simpa using this

theorem digitChar_isDigit (d : Nat) (hd : d < 10) :
    (Char.ofNat (48 + d)).isDigit = true := by
  interval_cases d <;> decide

theorem otpDigit_isDigit (n : Nat) : (otpDigit n).isDigit = true :=
  digitChar_isDigit (n % 10) (Nat.mod_lt n (by norm_num))

theorem genOtp_length (seed : Nat) : (genOtp seed).length = 6 := by
  simp [genOtp, String.length]

theorem genOtp_digits (seed : Nat) : ((genOtp seed).data.all Char.isDigit) = true := by
  simp only [genOtp, List.all_eq_true]
  intro c hc
  simp only [List.mem_map] at hc
  obtain ⟨i, _, hi⟩ := hc
  rw [← hi]
  exact otpDigit_isDigit _

/- ============================================================
   C3, C4, C5, C6 theorems
   ============================================================ -/

/-- C6: for every account that passes all eligibility checks (domain,
existence, `is_active`, `is_approved`), issuance generates a 6-digit
numeric code and persists it on the account together with the expiry
`now + 10` minutes. -/
theorem request_otp_issues_code (db : List Account) (email : String)
    (now seed : Nat) (u : Account)
    (hdom : emailDomainOk email = true) (hf : findAccount db email = some u)
    (hact : u.is_active = true) (happ : u.is_approved = true) :
    requestOtp db email now seed
        = (setAccount db email
            { u with otp_code := some (genOtp seed),
                     otp_expires_at := some (now + 10) },
           Except.ok (genOtp seed))
      ∧ (genOtp seed).length = 6
      ∧ ((genOtp seed).data.all Char.isDigit) = true
      ∧ findAccount (requestOtp db email now seed).fst email
          = some { u with otp_code := some (genOtp seed),
                          otp_expires_at := some (now + 10) } := by
  have hmain : requestOtp db email now seed
      = (setAccount db email
          { u with otp_code := some (genOtp seed),
                   otp_expires_at := some (now + 10) },
         Except.ok (genOtp seed)) := by
    simp [requestOtp, hdom, hf, hact, happ]
  refine ⟨hmain, genOtp_length seed, genOtp_digits seed, ?_⟩
  rw [hmain]
  exact findAccount_setAccount db email _ (findAccount_email db email u hf)
    (by rw [hf]; rfl)

/-- Witness for `request_otp_issues_code` on a concrete eligible account. -/
theorem request_otp_issues_code_witness :
    emailDomainOk "valid@accenture.com" = true
      ∧ findAccount
          [Account.mk "valid@accenture.com" true true none none]
          "valid@accenture.com"
          = some (Account.mk "valid@accenture.com" true true none none)
      ∧ (requestOtp [Account.mk "valid@accenture.com" true true none none]
            "valid@accenture.com" 5 123456
          = (setAccount [Account.mk "valid@accenture.com" true true none none]
              "valid@accenture.com"
              { Account.mk "valid@accenture.com" true true none none with
                  otp_code := some (genOtp 123456),
                  otp_expires_at := some (5 + 10) },
             Except.ok (genOtp 123456))
        ∧ (genOtp 123456).length = 6
        ∧ ((genOtp 123456).data.all Char.isDigit) = true
        ∧ findAccount
            (requestOtp [Account.mk "valid@accenture.com" true true none none]
              "valid@accenture.com" 5 123456).fst "valid@accenture.com"
            = some { Account.mk "valid@accenture.com" true true none none with
                       otp_code := some (genOtp 123456),
                       otp_expires_at := some (5 + 10) }) :=
  ⟨by decide, by decide,
   request_otp_issues_code
     [Account.mk "valid@accenture.com" true true none none]
     "valid@accenture.com" 5 123456
     (Account.mk "valid@accenture.com" true true none none)
     (by decide) (by decide) (by decide) (by decide)⟩

/-- C3: a `verify_otp` immediately after a `request_otp` that issued
`code` succeeds exactly once — the success clears `otp_code` and
`otp_expires_at` on the stored account at once, and a second `verify_otp`
with the same code fails with `no_pending_request`. -/
theorem otp_single_use (db : List Account) (email : String) (now seed : Nat)
    (db1 : List Account) (code : String)
    (hreq : requestOtp db email now seed = (db1, Except.ok code)) :
    (verifyOtp db1 email code now).snd = Except.ok ()
      ∧ (∃ u1, findAccount (verifyOtp db1 email code now).fst email = some u1
          ∧ u1.otp_code = none ∧ u1.otp_expires_at = none)
      ∧ (verifyOtp (verifyOtp db1 email code now).fst email code now).snd
          = Except.error VerifyError.no_pending_request := by
  by_cases hdom : emailDomainOk email = true
  case neg =>
    simp only [Bool.not_eq_true] at hdom
    simp [requestOtp, hdom] at hreq
  case pos =>
  cases hf : findAccount db email with
  | none => simp [requestOtp, hdom, hf] at hreq
  | some u =>
    by_cases hact : u.is_active = true
    case neg =>
      simp only [Bool.not_eq_true] at hact
      simp [requestOtp, hdom, hf, hact] at hreq
    case pos =>
    by_cases happ : u.is_approved = true
    case neg =>
      simp only [Bool.not_eq_true] at happ
      simp [requestOtp, hdom, hf, hact, happ] at hreq
    case pos =>
    have humail : u.email = email := findAccount_email db email u hf
    have hs : (findAccount db email).isSome = true := by
      rw [hf]; rfl
    simp only [requestOtp, hdom, hf, hact, happ, if_true, Prod.mk.injEq] at hreq
    obtain ⟨hdb1, hcode⟩ := hreq
    have hcode2 : genOtp seed = code := by
      cases hcode with
      | refl => rfl
    subst hcode2
    obtain ⟨w, hw1, hw2, hw3, hw4⟩ :
        ∃ w, setAccount db email w = db1 ∧ w.email = email
          ∧ w.otp_code = some (genOtp seed)
          ∧ w.otp_expires_at = some (now + 10) :=
      ⟨_, hdb1, humail, rfl, rfl⟩
    have hfd1 : findAccount db1 email = some w := by
      rw [← hw1]
      exact findAccount_setAccount db email w hw2 hs
    have hnlt : ¬ (now > now + 10) := by omega
    have hver : verifyOtp db1 email (genOtp seed) now
        = (setAccount db1 email (clearOtp w), Except.ok ()) := by
      simp [verifyOtp, hfd1, hw3, hw4, hnlt]
    have hwm2 : (clearOtp w).email = email := by
      simpa [clearOtp] using hw2
    have hs1 : (findAccount db1 email).isSome = true := by
      rw [hfd1]; rfl
    have hfd2 : findAccount (verifyOtp db1 email (genOtp seed) now).fst email
        = some (clearOtp w) := by
      rw [hver]
      exact findAccount_setAccount db1 email (clearOtp w) hwm2 hs1
    refine ⟨by rw [hver], ⟨clearOtp w, hfd2, rfl, rfl⟩, ?_⟩
    rw [hver] at hfd2
    simp only [clearOtp] at hfd2
    rw [hver]
    simp [verifyOtp, clearOtp, hfd2]

/-- Witness for `otp_single_use` on a concrete issuance. -/
theorem otp_single_use_witness :
    requestOtp [Account.mk "v@accenture.com" true true none none]
        "v@accenture.com" 0 42
      = ([Account.mk "v@accenture.com" true true (some (genOtp 42)) (some 10)],
         Except.ok (genOtp 42))
    ∧ ((verifyOtp [Account.mk "v@accenture.com" true true (some (genOtp 42)) (some 10)]
          "v@accenture.com" (genOtp 42) 0).snd = Except.ok ()
      ∧ (∃ u1, findAccount
            (verifyOtp [Account.mk "v@accenture.com" true true (some (genOtp 42)) (some 10)]
              "v@accenture.com" (genOtp 42) 0).fst "v@accenture.com" = some u1
          ∧ u1.otp_code = none ∧ u1.otp_expires_at = none)
      ∧ (verifyOtp
          (verifyOtp [Account.mk "v@accenture.com" true true (some (genOtp 42)) (some 10)]
            "v@accenture.com" (genOtp 42) 0).fst
          "v@accenture.com" (genOtp 42) 0).snd
          = Except.error VerifyError.no_pending_request) :=
  ⟨by decide,
   otp_single_use [Account.mk "v@accenture.com" true true none none]
     "v@accenture.com" 0 42
     [Account.mk "v@accenture.com" true true (some (genOtp 42)) (some 10)]
     (genOtp 42) (by decide)⟩

/-- C4: a `verify_otp` performed after the code's validity window has
elapsed (`now > otp_expires_at`) fails with `expired` — for every
submitted code, in particular when the digits equal the stored
`otp_code` — and therefore never succeeds. -/
theorem verify_otp_expired_never_succeeds (db : List Account)
    (email code : String) (now : Nat) (u : Account) (stored : String)
    (exp : Nat) (hf : findAccount db email = some u)
    (hc : u.otp_code = some stored) (he : u.otp_expires_at = some exp)
    (hlt : exp < now) :
    (verifyOtp db email code now).snd = Except.error VerifyError.expired := by
  simp [verifyOtp, hf, hc, he, hlt]

/-- Witness for `verify_otp_expired_never_succeeds`: one minute past the
window, with the submitted digits equal to the stored code. -/
theorem verify_otp_expired_never_succeeds_witness :
    findAccount [Account.mk "e@accenture.com" true true (some "123456") (some 5)]
        "e@accenture.com"
      = some (Account.mk "e@accenture.com" true true (some "123456") (some 5))
    ∧ (5 : Nat) < 6
    ∧ (verifyOtp [Account.mk "e@accenture.com" true true (some "123456") (some 5)]
        "e@accenture.com" "123456" 6).snd = Except.error VerifyError.expired :=
  ⟨by decide, by decide,
   verify_otp_expired_never_succeeds
     [Account.mk "e@accenture.com" true true (some "123456") (some 5)]
     "e@accenture.com" "123456" 6
     (Account.mk "e@accenture.com" true true (some "123456") (some 5))
     "123456" 5 (by decide) (by decide) (by decide) (by decide)⟩

/-- Counterexample to C5 as stated: an account with `is_approved = false`
and `is_active = false` gets `deactivated`, not `pending_approval`,
because the gate checks `is_active` before `is_approved` — so the claimed
"regardless of the account's `is_active` value" fails. -/
theorem request_otp_unapproved_counterexample :
    (requestOtp [Account.mk "inactive@accenture.com" false false none none]
        "inactive@accenture.com" 0 0).snd
      = Except.error EligibilityError.deactivated
    ∧ (requestOtp [Account.mk "inactive@accenture.com" false false none none]
        "inactive@accenture.com" 0 0).snd
      ≠ Except.error EligibilityError.pending_approval := by
  decide

/-- C5 (amended): for every account with `is_active = true` and
`is_approved = false` (and a domain-matching email), `request_otp` returns
`pending_approval`, no OTP is generated and no account state changes. -/
theorem request_otp_unapproved_pending (db : List Account) (email : String)
    (now seed : Nat) (u : Account) (hdom : emailDomainOk email = true)
    (hf : findAccount db email = some u) (hact : u.is_active = true)
    (happ : u.is_approved = false) :
    requestOtp db email now seed
      = (db, Except.error EligibilityError.pending_approval) := by
  simp [requestOtp, hdom, hf, hact, happ]

/-- Witness for `request_otp_unapproved_pending` on a concrete account. -/
theorem request_otp_unapproved_pending_witness :
    emailDomainOk "unapproved@accenture.com" = true
    ∧ requestOtp [Account.mk "unapproved@accenture.com" true false none none]
        "unapproved@accenture.com" 3 7
      = ([Account.mk "unapproved@accenture.com" true false none none],
         Except.error EligibilityError.pending_approval) :=
  ⟨by decide,
   request_otp_unapproved_pending
     [Account.mk "unapproved@accenture.com" true false none none]
     "unapproved@accenture.com" 3 7
     (Account.mk "unapproved@accenture.com" true false none none)
     (by decide) (by decide) (by decide) (by decide)⟩

/- ============================================================
   Helper lemmas for the admin operations
   ============================================================ -/

theorem mem_setUserById (db : List AppUser) (uid : Nat) (nu : AppUser) :
    ∀ v ∈ setUserById db uid nu, v ∈ db ∨ v = nu := by
  induction db with
  | nil => intro v hv; simp [setUserById] at hv
  | cons u rest ih =>
    intro v hv
    by_cases hu : (u.id == uid) = true
    · rw [setUserById, if_pos hu] at hv
      rcases List.mem_cons.mp hv with hnu | hrest
      · exact Or.inr hnu
      · exact Or.inl (List.mem_cons_of_mem u hrest)
    · rw [setUserById, if_neg hu] at hv
      rcases List.mem_cons.mp hv with hvu | hrest
      · exact Or.inl (hvu ▸ List.mem_cons_self u rest)
      · rcases ih v hrest with hvdb | hvnu
        · exact Or.inl (List.mem_cons_of_mem u hvdb)
        · exact Or.inr hvnu

theorem setUserByEmail_self_mem (db : List AppUser) (e : String) (nu : AppUser)
    (hs : (findUserByEmail db e).isSome = true) :
    nu ∈ setUserByEmail db e nu := by
  induction db with
  | nil => simp [findUserByEmail] at hs
  | cons u rest ih =>
    by_cases hu : (u.email == e) = true
    · rw [setUserByEmail, if_pos hu]
      exact List.mem_cons_self nu rest
    · simp only [Bool.not_eq_true] at hu
      have hs' : (findUserByEmail rest e).isSome = true := by
        simpa [findUserByEmail, List.find?, hu] using hs
      rw [setUserByEmail, if_neg (by simp [hu])]
      exact List.mem_cons_of_mem u (ih hs')

theorem findUserByEmail_email (db : List AppUser) (e : String) (u : AppUser)
    (h : findUserByEmail db e = some u) : u.email = e := by
  have := List.find?_some h
  simpa using this

/- ============================================================
   C9 theorem
   ============================================================ -/

/-- C9: startup provisioning (`_ensure_super_admin`) always leaves a
super-admin row with admin role, `is_active = true`, `is_approved = true`
in the store — creating it when absent — and the administrative operations
`update_user_role` and `revoke_user` preserve the invariant that every
super-admin row has admin role, is active and is approved: neither can
deactivate the super admin nor demote its role away from admin. -/
theorem super_admin_provisioned_and_protected :
    (∀ (db : List AppUser) (newId : Nat), superAdminOk (ensureSuperAdmin db newId))
    ∧ (∀ (db : List AppUser) (actorEmail : String) (uid : Nat) (newRole : String),
        saProtected db → saProtected (updateUserRole db actorEmail uid newRole))
    ∧ (∀ (db : List AppUser) (uid : Nat),
        saProtected db → saProtected (revokeUser db uid)) := by
  refine ⟨?_, ?_, ?_⟩
  · intro db newId
    cases hfd : findUserByEmail db SUPER_ADMIN_EMAIL with
    | none =>
      refine ⟨AppUser.mk newId SUPER_ADMIN_EMAIL "admin" true true, ?_, rfl, rfl, rfl, rfl⟩
      simp [ensureSuperAdmin, hfd]
    | some sa =>
      have hmail : sa.email = SUPER_ADMIN_EMAIL :=
        findUserByEmail_email db SUPER_ADMIN_EMAIL sa hfd
      have hs : (findUserByEmail db SUPER_ADMIN_EMAIL).isSome = true := by
        rw [hfd]; rfl
      refine ⟨{ sa with role := "admin", is_approved := true, is_active := true },
        ?_, hmail, rfl, rfl, rfl⟩
      simp only [ensureSuperAdmin, hfd]
      exact setUserByEmail_self_mem db SUPER_ADMIN_EMAIL _ hs
  · intro db actorEmail uid newRole hp
    cases hfind : findUserById db uid with
    | none => simpa only [updateUserRole, hfind] using hp
    | some user =>
      simp only [updateUserRole, hfind]
      by_cases h1 : newRole ∉ VALID_ROLES
      · rw [if_pos h1]; exact hp
      · rw [if_neg h1]
        by_cases h2 : pyLower user.email = SUPER_ADMIN_EMAIL ∧ newRole ≠ "admin"
        · rw [if_pos h2]; exact hp
        · rw [if_neg h2]
          by_cases h3 : newRole = "admin" ∧ pyLower actorEmail ≠ SUPER_ADMIN_EMAIL
          · rw [if_pos h3]; exact hp
          · rw [if_neg h3]
            by_cases h4 : user.role = "admin" ∧ newRole ≠ "admin" ∧ adminCount db ≤ 1
            · rw [if_pos h4]; exact hp
            · rw [if_neg h4]
              intro v hv hle
              rcases mem_setUserById db uid _ v hv with hvdb | hveq
              · exact hp v hvdb hle
              · subst hveq
                have hle' : pyLower user.email = SUPER_ADMIN_EMAIL := hle
                have huser : user ∈ db := List.mem_of_find?_eq_some hfind
                obtain ⟨_, ha, hap⟩ := hp user huser hle'
                have hradmin : newRole = "admin" := by
                  by_contra hne
                  exact h2 ⟨hle', hne⟩
                exact ⟨hradmin, ha, hap⟩
  · intro db uid hp
    cases hfind : findUserById db uid with
    | none => simpa only [revokeUser, hfind] using hp
    | some user =>
      simp only [revokeUser, hfind]
      by_cases h1 : pyLower user.email = SUPER_ADMIN_EMAIL
      · rw [if_pos h1]; exact hp
      · rw [if_neg h1]
        intro v hv hle
        rcases mem_setUserById db uid _ v hv with hvdb | hveq
        · exact hp v hvdb hle
        · subst hveq
          have hle' : pyLower user.email = SUPER_ADMIN_EMAIL := hle
          exact absurd hle' h1

/-- Witness for `super_admin_provisioned_and_protected` on concrete
stores: provisioning into an empty store, an attempted demotion of the
super admin by another admin, and an attempted revocation. -/
theorem super_admin_provisioned_and_protected_witness :
    superAdminOk (ensureSuperAdmin [] 1)
    ∧ (saProtected [AppUser.mk 1 SUPER_ADMIN_EMAIL "admin" true true]
      ∧ saProtected (updateUserRole [AppUser.mk 1 SUPER_ADMIN_EMAIL "admin" true true]
          "other@accenture.com" 1 "resource"))
    ∧ saProtected (revokeUser [AppUser.mk 1 SUPER_ADMIN_EMAIL "admin" true true] 1) :=
  ⟨super_admin_provisioned_and_protected.1 [] 1,
   ⟨by unfold saProtected; decide,
    super_admin_provisioned_and_protected.2.1
      [AppUser.mk 1 SUPER_ADMIN_EMAIL "admin" true true]
      "other@accenture.com" 1 "resource" (by unfold saProtected; decide)⟩,
   super_admin_provisioned_and_protected.2.2
     [AppUser.mk 1 SUPER_ADMIN_EMAIL "admin" true true] 1
     (by unfold saProtected; decide)⟩
